import Mathlib

set_option maxHeartbeats 1000000

/-! Shallow embedding of the HR sentiment analysis Streamlit application
(`app.py`).  Employee records are Python dicts read with `.get`, so every
field is optional; numeric sentiment scores are modelled as rationals.  The
`HRAnalyzer` collaborator lives in `main.py`, which is outside the given
sources; its four accessors are modelled from the spec where noted. -/

/-- An employee feedback record (a Python dict; an absent key is `none`). -/
structure Employee where
  id : Option String
  employee_name : Option String
  role : Option String
  sentiment_score : Option ℚ
  quadrant : Option String
  content : Option String
deriving DecidableEq

/-- The `HRAnalyzer` collaborator as visible to `app.py`: the loaded record
list plus presence flags for the Gemini AI client and the Qdrant vector
client (`spec §6`: presence, not functional probes). -/
structure Analyzer where
  data : List Employee
  gemini_client : Bool
  qdrant_client : Bool
deriving DecidableEq

/-- Streamlit session state: the optional analyzer and the load flag. -/
structure SessionState where
  analyzer : Option Analyzer
  data_loaded : Bool
deriving DecidableEq

/-- `occursIn sub s`: `sub` occurs as a contiguous substring of `s`
(Python `in` on strings), stated over the underlying character lists. -/
def occursIn (sub s : String) : Prop :=
  ∃ pre post : List Char, s.data = pre ++ sub.data ++ post

/-- Boolean test: the first list is a prefix of the second. -/
def charsPrefixOf : List Char → List Char → Bool
  | [], _ => true
  | _ :: _, [] => false
  | a :: as, b :: bs => a == b && charsPrefixOf as bs

/-- Boolean test: the first list occurs contiguously inside the second. -/
def charsSubOf (sub : List Char) : List Char → Bool
  | [] => charsPrefixOf sub []
  | l@(_ :: rest) => charsPrefixOf sub l || charsSubOf sub rest

/-- Boolean substring test (Python `in`), used by the keyword router. -/
def containsSub (s sub : String) : Bool :=
  charsSubOf sub.data s.data

/-- Lower-case a string character-wise (Python `str.lower()` on the ASCII
queries and keywords involved). -/
def strLower (s : String) : String := ⟨s.data.map Char.toLower⟩

/-- Render a rational with one decimal digit, modelling the Python `:.1f`
format used for every sentiment value shown in the UI. -/
def fmt1 (q : ℚ) : String :=
  let t : Int := (q * 10 + 1 / 2).floor
  (if t < 0 then "-" else "") ++ toString (t.natAbs / 10) ++ "." ++ toString (t.natAbs % 10)

/-- A part of a structured AI response; `text` models the optional `text`
attribute of the first part. -/
structure RespPart where
  text : Option String
deriving DecidableEq

/-- A candidate of a structured AI response.  `content` is `some parts` when
the `content.parts` attribute chain is present, and `none` when accessing
that chain raises `AttributeError`. -/
structure RespCandidate where
  content : Option (List RespPart)
deriving DecidableEq

/-- The values `extract_ai_text` may receive: Python `None`, a plain string,
or a response object with optional `candidates` and `text` attributes. -/
inductive AIResponse where
  | null
  | str (s : String)
  | obj (candidates : Option (List RespCandidate)) (text : Option String)
deriving DecidableEq

/-- The `try`-block of `extract_ai_text`; `Except.error` models an exception
raised while probing attributes (a first candidate whose `content.parts`
chain is missing).  Python truthiness: `None` and `""` are falsy, as is an
absent or empty `candidates` list. -/
def extract_ai_text_body : AIResponse → Except String (Option String)
  | .null => .ok none
  | .str s => .ok (if s = "" then none else some s)
  | .obj candidates text =>
    match candidates with
    | some (c :: _) =>
      match c.content with
      | none => .error "Candidate object has no attribute content"
      | some parts =>
        match parts with
        | p :: _ =>
          match p.text with
          | some t => .ok (some t)
          | none => .ok text
        | [] => .ok text
    | _ => .ok text

/-- `extract_ai_text` from `app.py`: unwrap an AI response into plain text,
converting any exception raised during probing into a visible message. -/
def extract_ai_text (response : AIResponse) : Option String :=
  match extract_ai_text_body response with
  | .ok v => v
  | .error e => some ("⚠️ Extraction failed: " ++ e)

/-- `get_employees_by_quadrant` from `app.py`: the empty list when the
analyzer is absent or holds no data, otherwise the records whose `quadrant`
field equals the requested name. -/
def get_employees_by_quadrant (analyzer : Option Analyzer) (quadrant_name : String) :
    List Employee :=
  match analyzer with
  | none => []
  | some a =>
    if a.data = [] then []
    else a.data.filter (fun emp => emp.quadrant == some quadrant_name)

/-- One rendered employee table row: id, role, formatted sentiment, content
(the four columns of `display_employees`). -/
def employee_row (emp : Employee) : String × String × String × String :=
  (emp.id.getD "-", emp.role.getD "-", fmt1 (emp.sentiment_score.getD 0) ++ "%",
    emp.content.getD "-")

/-- Result of `display_employees`: an explicit notice when the list is empty,
otherwise the rendered table rows. -/
inductive EmployeeView where
  | noneFound
  | table (rows : List (String × String × String × String))
deriving DecidableEq

/-- `display_employees` from `app.py`. -/
def display_employees (employees : List Employee) : EmployeeView :=
  if employees = [] then .noneFound else .table (employees.map employee_row)

/-- Append a key unless already present (Python dict insertion order). -/
def insertKey (ks : List String) (k : String) : List String :=
  if k ∈ ks then ks else ks ++ [k]

/-- The distinct keys of a list in order of first occurrence. -/
def keysInOrder (l : List String) : List String := l.foldl insertKey []

/-- Modelled from the spec: `HRAnalyzer.get_quadrant_distribution` (defined in
`main.py`, outside the given sources) — the mapping quadrant → count over the
currently loaded records, keys in order of first occurrence. -/
def get_quadrant_distribution (a : Analyzer) : List (String × Nat) :=
  (keysInOrder (a.data.filterMap (fun e => e.quadrant))).map
    (fun q => (q, (a.data.filter (fun e => e.quadrant == some q)).length))

/-- Modelled from the spec: arithmetic mean of sentiment over a record list,
with the empty set falling back to 0 (spec §8). -/
def mean_sentiment (l : List Employee) : ℚ :=
  if l = [] then 0
  else (l.map (fun e => e.sentiment_score.getD 0)).sum / (l.length : ℚ)

/-- Modelled from the spec: `HRAnalyzer.get_average_sentiment`. -/
def get_average_sentiment (a : Analyzer) : ℚ := mean_sentiment a.data

/-- Modelled from the spec: `HRAnalyzer`'s per-role mean sentiment mapping. -/
def get_sentiment_by_role (a : Analyzer) : List (String × ℚ) :=
  (keysInOrder (a.data.map (fun e => e.role.getD "-"))).map
    (fun r => (r, mean_sentiment (a.data.filter (fun e => e.role.getD "-" == r))))

/-- The aggregate summary returned by `HRAnalyzer.get_analytics_summary`
(modelled from the spec). -/
structure Summary where
  total_employees : Nat
  average_sentiment : ℚ
  quadrant_distribution : List (String × Nat)
  sentiment_by_role : List (String × ℚ)
deriving DecidableEq

/-- Modelled from the spec: `HRAnalyzer.get_analytics_summary`, recomputed
from the current record set on every call. -/
def get_analytics_summary (a : Analyzer) : Summary :=
  { total_employees := a.data.length,
    average_sentiment := get_average_sentiment a,
    quadrant_distribution := get_quadrant_distribution a,
    sentiment_by_role := get_sentiment_by_role a }

/-- One sampled record line of the context block (`app.py`, the loop over
`analyzer.data[:21]`). -/
def record_line (emp : Employee) : String :=
  "\n- " ++ emp.employee_name.getD "Unknown" ++ " (" ++ emp.role.getD "-" ++ "): "
    ++ fmt1 (emp.sentiment_score.getD 0) ++ "%, " ++ emp.quadrant.getD "-"

/-- `build_context` from `app.py`: the grounding context forwarded to the AI
operation: the aggregate summary followed by at most the first 21 records. -/
def build_context (analyzer : Analyzer) : String :=
  let summary := get_analytics_summary analyzer
  let quadrant_info := String.intercalate ", "
    (summary.quadrant_distribution.map (fun p => p.1 ++ ": " ++ toString p.2))
  let role_info := String.intercalate ", "
    (summary.sentiment_by_role.map (fun p => p.1 ++ ": " ++ fmt1 p.2 ++ "%"))
  let header :=
    "\n    Total Employees: " ++ toString summary.total_employees
      ++ "\n    Average Sentiment: " ++ fmt1 summary.average_sentiment
      ++ "%\n    Quadrant Distribution: " ++ quadrant_info
      ++ "\n    Sentiment by Role: " ++ role_info
      ++ "\n\n    Example Employee Records:\n    "
  (analyzer.data.take 21).foldl (fun ctx emp => ctx ++ record_line emp) header

/-- Message severity of a Streamlit notice (`st.success` / `st.info` /
`st.warning` / `st.error`). -/
inductive Severity where
  | success
  | info
  | warning
  | error
deriving DecidableEq

/-- One notice shown in the sidebar status panel. -/
structure StatusMessage where
  severity : Severity
  text : String
deriving DecidableEq

/-- "✅ Environment configured". -/
def msg_env_configured : StatusMessage := ⟨.success, "✅ Environment configured"⟩

/-- "✅ Gemini AI connected". -/
def msg_gemini_connected : StatusMessage := ⟨.success, "✅ Gemini AI connected"⟩

/-- "✅ Vector database connected". -/
def msg_vector_connected : StatusMessage := ⟨.success, "✅ Vector database connected"⟩

/-- "ℹ️ Vector database offline (optional)". -/
def msg_vector_offline : StatusMessage := ⟨.info, "ℹ️ Vector database offline (optional)"⟩

/-- "ℹ️ Analyzer not initialized". -/
def msg_not_initialized : StatusMessage := ⟨.warning, "ℹ️ Analyzer not initialized"⟩

/-- `show_environment_status` from `app.py`: the sidebar notices, in order.
When the Gemini client is absent nothing is shown for it (the `else` branch
is commented out in the source). -/
def show_environment_status (st : SessionState) : List StatusMessage :=
  match st.analyzer with
  | none => [msg_not_initialized]
  | some a =>
    [msg_env_configured]
      ++ (if a.gemini_client then [msg_gemini_connected] else [])
      ++ (if a.qdrant_client then [msg_vector_connected] else [msg_vector_offline])

/-- The three boolean health signals of the status panel: session/analyzer
initialized, AI client available, vector client available. -/
def status_signals (st : SessionState) : Bool × Bool × Bool :=
  match st.analyzer with
  | none => (false, false, false)
  | some a => (true, a.gemini_client, a.qdrant_client)

/-- Outcome of one `HRAnalyzer.load_data()` call: success carrying the fresh
record set, a falsy return, or a raised exception. -/
inductive LoadResult where
  | success (newData : List Employee)
  | failure
  | raised (e : String)
deriving DecidableEq

/-- Modelled from the spec (§6, `main.py` is outside the given sources):
`load_data` replaces the in-memory record set only on success; on a falsy
return or an exception the analyzer keeps its previous records. -/
def apply_load (a : Analyzer) : LoadResult → Analyzer
  | .success d => { a with data := d }
  | .failure => a
  | .raised _ => a

/-- The notice produced by the reload button handler. -/
inductive ReloadMessage where
  | successMsg
  | warningMsg
  | errorMsg (e : String)
  | notInitialized
deriving DecidableEq

/-- The "Reload Data" button branch of `data_management_section` in `app.py`:
re-trigger `load_data`, set the load flag and report success on a truthy
return, warn on a falsy return, and show the error on an exception. -/
def data_management_reload (st : SessionState) (r : LoadResult) :
    SessionState × ReloadMessage :=
  match st.analyzer with
  | none => (st, .notInitialized)
  | some a =>
    let a' := apply_load a r
    match r with
    | .success _ => ({ analyzer := some a', data_loaded := true }, .successMsg)
    | .failure => ({ st with analyzer := some a' }, .warningMsg)
    | .raised e => ({ st with analyzer := some a' }, .errorMsg e)

/-- A bar of the per-role sentiment chart: role, value, bar color, label. -/
structure RoleBar where
  role : String
  sentiment : ℚ
  color : String
  label : String
deriving DecidableEq

/-- What `analytics_dashboard` renders. -/
inductive DashboardView where
  | placeholder
  | dashboard (total : Nat) (avgText : String) (avgLabel : String)
      (champions : Nat) (atRisk : Nat) (pie : List (String × Nat))
      (bars : List RoleBar)
deriving DecidableEq

/-- Look a key up in an association list, defaulting to 0 (Python
`dict.get(k, 0)`). -/
def lookup0 (d : List (String × Nat)) (q : String) : Nat :=
  ((d.find? (fun p => p.1 == q)).map (fun p => p.2)).getD 0

/-- `analytics_dashboard` from `app.py`: placeholder when no data is loaded,
otherwise the four metrics, the quadrant pie and the per-role bar chart with
its color threshold policy. -/
def analytics_dashboard (st : SessionState) : DashboardView :=
  match st.analyzer with
  | none => .placeholder
  | some a =>
    if a.data = [] then .placeholder
    else
      let summary := get_analytics_summary a
      .dashboard summary.total_employees
        (fmt1 summary.average_sentiment ++ "%")
        (if summary.average_sentiment > 60 then "Healthy" else "Needs Attention")
        (lookup0 summary.quadrant_distribution "Champion")
        (lookup0 summary.quadrant_distribution "At Risk")
        summary.quadrant_distribution
        (summary.sentiment_by_role.map (fun (p : String × ℚ) =>
          { role := p.1, sentiment := p.2,
            color := if p.2 > 70 then "#28a745"
              else if p.2 > 50 then "#ffc107" else "#dc3545",
            label := fmt1 p.2 ++ "%" }))

/-- The button and text inputs of the AI analysis tab on one render. -/
structure AIInputs where
  show_champions : Bool
  show_at_risk : Bool
  show_engagement : Bool
  show_retention : Bool
  query : String
  analyze_clicked : Bool
deriving DecidableEq

/-- The external `analyze_with_ai` operation: question and context in, a
response out, or a raised exception (`Except.error`). -/
def AIOracle : Type := String → String → Except String AIResponse

/-- The fixed engagement question of the "Engagement Summary" button. -/
def engagement_query : String :=
  "What is the overall employee engagement status and key factors affecting it?"

/-- The fixed retention question of the "Retention Insights" button. -/
def retention_query : String :=
  "What factors might affect employee retention and what are your recommendations?"

/-- One rendered section of the AI analysis tab. -/
inductive AISection where
  | quadrantTable (title : String) (view : EmployeeView)
  | aiResult (title : String) (body : String)
  | aiNoContent (title : String)
  | aiFailed (title : String) (err : String)
deriving DecidableEq

/-- Issue one AI query and render its section: the unwrapped text, the
"no content" error, or the caught exception. -/
def run_ai_query (ai : AIOracle) (title q context : String) : AISection :=
  match ai q context with
  | .error e => .aiFailed title e
  | .ok resp =>
    match extract_ai_text resp with
    | some r => .aiResult title r
    | none => .aiNoContent title

/-- The four keyword → quadrant mappings of the custom query router, in
declared (dict insertion) order. -/
def quadrant_keywords : List (String × String) :=
  [("champion", "Champion"), ("at risk", "At Risk"),
    ("concerned", "Concerned but active"), ("isolated", "Potentially Isolated")]

/-- First keyword whose lower-cased text occurs in the lower-cased query
(the `for kw, quad in quadrant_keywords.items()` loop with `break`). -/
def findQuadrantKeyword (q : String) : Option (String × String) :=
  quadrant_keywords.find? (fun p => containsSub (strLower q) (strLower p.1))

/-- The quadrant section title `f"📌 {quad} Employees ({len})"`. -/
def quadrant_section (a : Analyzer) (icon quad : String) : AISection :=
  let employees := get_employees_by_quadrant (some a) quad
  .quadrantTable (icon ++ " " ++ quad ++ " Employees (" ++ toString employees.length ++ ")")
    (display_employees employees)

/-- The custom question block of `ai_analysis_interface`: runs only for a
non-empty query whose Analyze button was clicked; routes keyword matches to
the local quadrant table (no AI call) and everything else to the AI.  The
second component counts `analyze_with_ai` invocations. -/
def custom_query_section (a : Analyzer) (ai : AIOracle) (context q : String)
    (clicked : Bool) : List AISection × Nat :=
  if q ≠ "" ∧ clicked = true then
    match findQuadrantKeyword q with
    | some (_, quad) => ([quadrant_section a "📌" quad], 0)
    | none => ([run_ai_query ai "🎯 AI Analysis Results" q context], 1)
  else ([], 0)

/-- What the AI analysis tab renders. -/
inductive AIView where
  | placeholder
  | sections (xs : List AISection)
deriving DecidableEq

/-- `ai_analysis_interface` from `app.py`: placeholder when no data is
loaded; otherwise builds the context once and renders the sections of the
pressed buttons followed by the custom query section.  The second component
counts `analyze_with_ai` invocations during the render. -/
def ai_analysis_interface (st : SessionState) (ai : AIOracle) (inputs : AIInputs) :
    AIView × Nat :=
  match st.analyzer with
  | none => (.placeholder, 0)
  | some a =>
    if a.data = [] then (.placeholder, 0)
    else
      let context := build_context a
      let s1 := if inputs.show_champions then [quadrant_section a "🏆" "Champion"] else []
      let s2 := if inputs.show_at_risk then [quadrant_section a "⚠️" "At Risk"] else []
      let s3 := if inputs.show_engagement
        then [run_ai_query ai "📈 Engagement Analysis" engagement_query context] else []
      let s4 := if inputs.show_retention
        then [run_ai_query ai "🎯 Retention Analysis" retention_query context] else []
      let custom := custom_query_section a ai context inputs.query inputs.analyze_clicked
      (.sections (s1 ++ s2 ++ s3 ++ s4 ++ custom.1),
        (if inputs.show_engagement then 1 else 0)
          + (if inputs.show_retention then 1 else 0) + custom.2)

/-- Concatenation of a list of strings (used to state the record block of
the context). -/
def concatAll : List String → String
  | [] => ""
  | s :: l => s ++ concatAll l

/-- A concrete Champion record used to exercise the theorems. -/
def empA : Employee :=
  ⟨some "1", some "Alice", some "Engineer", some 80, some "Champion", some "Great team"⟩

/-- A concrete At-Risk record used to exercise the theorems. -/
def empB : Employee :=
  ⟨some "2", some "Bob", some "Sales", some 30, some "At Risk", some "Stressed"⟩

/-- A concrete analyzer holding two records, with the Gemini client present
and the vector client absent. -/
def analyzerW : Analyzer := ⟨[empA, empB], true, false⟩

/-- A concrete initialized session. -/
def sessionW : SessionState := ⟨some analyzerW, true⟩

/-- A concrete AI oracle that always answers with plain text. -/
def aiW : AIOracle := fun _ _ => Except.ok (AIResponse.str "ok")

/-- Concrete tab inputs: no quick buttons, the query
"Show me at risk employees" submitted. -/
def inputsW : AIInputs := ⟨false, false, false, false, "Show me at risk employees", true⟩

theorem str_data_append (a b : String) : (a ++ b).data = a.data ++ b.data := rfl

theorem str_ext {a b : String} (h : a.data = b.data) : a = b := by
  cases a; cases b; exact congrArg String.mk h

theorem str_append_assoc (a b c : String) : a ++ b ++ c = a ++ (b ++ c) := by
  apply str_ext; simp [str_data_append]

theorem str_append_empty (a : String) : a ++ "" = a := by
  apply str_ext; simp [str_data_append]

theorem occursIn_appendL {sub s : String} (h : occursIn sub s) (t : String) :
    occursIn sub (s ++ t) := by
  obtain ⟨pre, post, hp⟩ := h
  exact ⟨pre, post ++ t.data, by simp [str_data_append, hp]⟩

theorem occursIn_appendR {sub s : String} (h : occursIn sub s) (t : String) :
    occursIn sub (t ++ s) := by
  obtain ⟨pre, post, hp⟩ := h
  exact ⟨t.data ++ pre, post, by simp [str_data_append, hp]⟩

theorem occursIn_suffix (pre sub : String) : occursIn sub (pre ++ sub) :=
  ⟨pre.data, [], by simp [str_data_append]⟩

theorem occursIn_self (s : String) : occursIn s s :=
  ⟨[], [], by simp⟩

theorem occursIn_concatAll {s : String} {l : List String} (h : s ∈ l) :
    occursIn s (concatAll l) := by
  induction l with
  | nil => cases h
  | cons hd tl ih =>
    rcases List.mem_cons.mp h with h | h
    · subst h; exact occursIn_appendL (occursIn_self s) (concatAll tl)
    · exact occursIn_appendR (ih h) hd

theorem foldl_append_concatAll (f : Employee → String) (l : List Employee)
    (init : String) :
    l.foldl (fun ctx emp => ctx ++ f emp) init = init ++ concatAll (l.map f) := by
  induction l generalizing init with
  | nil => simp [concatAll, str_append_empty]
  | cons hd tl ih =>
    simp only [List.foldl_cons, List.map_cons, concatAll]
    rw [ih, str_append_assoc]

theorem mem_insertKey (acc : List String) (k x : String) :
    x ∈ insertKey acc k ↔ x ∈ acc ∨ x = k := by
  unfold insertKey
  split
  · rename_i hk
    constructor
    · exact fun h => Or.inl h
    · rintro (h | h)
      · exact h
      · exact h ▸ hk
  · simp [List.mem_append]

theorem mem_foldl_insertKey (l acc : List String) (x : String) :
    x ∈ l.foldl insertKey acc ↔ x ∈ acc ∨ x ∈ l := by
  induction l generalizing acc with
  | nil => simp
  | cons hd tl ih =>
    simp only [List.foldl_cons, ih, mem_insertKey, List.mem_cons]
    constructor
    · rintro ((h | h) | h)
      · exact Or.inl h
      · exact Or.inr (Or.inl h)
      · exact Or.inr (Or.inr h)
    · rintro (h | h | h)
      · exact Or.inl (Or.inl h)
      · exact Or.inl (Or.inr h)
      · exact Or.inr h

theorem mem_keysInOrder (l : List String) (x : String) :
    x ∈ keysInOrder l ↔ x ∈ l := by
  unfold keysInOrder
  rw [mem_foldl_insertKey]
  simp

theorem find?_map_key (keys : List String) (f : String → Nat) (q : String) :
    (keys.map (fun k => (k, f k))).find? (fun p => p.1 == q)
      = if q ∈ keys then some (q, f q) else none := by
  induction keys with
  | nil => simp
  | cons hd tl ih =>
    by_cases h : hd = q
    · subst h
      simp [List.find?]
    · rw [List.map_cons, List.find?_cons_of_neg, ih]
      · simp [List.mem_cons, h, Ne.symm h]
      · simp [h]

/-- C10: `get_employees_by_quadrant` is total at the public boundary: it
returns the empty list, without raising, when the analyzer is `None` or its
data is empty; a caller needs no non-null, populated analyzer. -/
theorem quadrant_filter_total_boundary (q : String) (a : Analyzer) (h : a.data = []) :
    get_employees_by_quadrant none q = [] ∧ get_employees_by_quadrant (some a) q = [] := by
  exact ⟨rfl, by simp [get_employees_by_quadrant, h]⟩

theorem quadrant_filter_total_boundary_witness :
    (⟨[], false, false⟩ : Analyzer).data = []
      ∧ get_employees_by_quadrant none "Champion" = []
      ∧ get_employees_by_quadrant (some ⟨[], false, false⟩) "Champion" = [] := by
  refine ⟨rfl, ?_, ?_⟩
  · exact (quadrant_filter_total_boundary "Champion" ⟨[], false, false⟩ rfl).1
  · exact (quadrant_filter_total_boundary "Champion" ⟨[], false, false⟩ rfl).2

/-- C8: `extract_ai_text` never propagates an exception: whenever the
probing body raises (models any exception inside the `try` block), the
function returns a visible extraction-failure message embedding the fault. -/
theorem extract_failure_visible (r : AIResponse) (e : String)
    (h : extract_ai_text_body r = Except.error e) :
    extract_ai_text r = some ("⚠️ Extraction failed: " ++ e) := by
  unfold extract_ai_text
  rw [h]

theorem extract_failure_visible_witness :
    extract_ai_text_body (AIResponse.obj (some [⟨none⟩]) none)
        = Except.error "Candidate object has no attribute content"
      ∧ extract_ai_text (AIResponse.obj (some [⟨none⟩]) none)
        = some ("⚠️ Extraction failed: " ++ "Candidate object has no attribute content") :=
  ⟨rfl, extract_failure_visible _ _ rfl⟩

/-- C2 counterexample: the claim "if the value is plain text it is returned
unchanged" fails at the empty string: Python's `if not response` treats `""`
as falsy, so `extract_ai_text("")` returns the "no content" sentinel
(`none`), not the string itself. -/
theorem extract_empty_string_sentinel :
    extract_ai_text (AIResponse.str "") = none
      ∧ (none : Option String) ≠ some "" := by
  exact ⟨rfl, by decide⟩

/-- C2 (amended): a non-empty plain-text value is returned unchanged, while
falsy inputs (absent response or empty string) yield the sentinel; an object
whose first candidate's `content.parts` chain has a first part with a `text`
attribute yields that leaf text; otherwise the direct `text` attribute is
returned when present; otherwise the "no content" sentinel (absence, not an
exception). -/
theorem extract_ai_text_contract :
    (∀ s : String, s ≠ "" → extract_ai_text (AIResponse.str s) = some s)
    ∧ extract_ai_text AIResponse.null = none
    ∧ extract_ai_text (AIResponse.str "") = none
    ∧ (∀ (c : RespCandidate) (cs : List RespCandidate) (txt : Option String)
        (p : RespPart) (ps : List RespPart) (t : String),
        c.content = some (p :: ps) → p.text = some t →
        extract_ai_text (AIResponse.obj (some (c :: cs)) txt) = some t)
    ∧ (∀ txt : Option String, extract_ai_text (AIResponse.obj none txt) = txt
        ∧ extract_ai_text (AIResponse.obj (some []) txt) = txt)
    ∧ (∀ (c : RespCandidate) (cs : List RespCandidate) (txt : Option String),
        c.content = some [] → extract_ai_text (AIResponse.obj (some (c :: cs)) txt) = txt)
    ∧ (∀ (c : RespCandidate) (cs : List RespCandidate) (txt : Option String)
        (p : RespPart) (ps : List RespPart),
        c.content = some (p :: ps) → p.text = none →
        extract_ai_text (AIResponse.obj (some (c :: cs)) txt) = txt) := by
  refine ⟨?_, rfl, rfl, ?_, ?_, ?_, ?_⟩
  · intro s hs
    simp [extract_ai_text, extract_ai_text_body, hs]
  · intro c cs txt p ps t hc hp
    obtain ⟨cc⟩ := c
    obtain ⟨pt⟩ := p
    simp only at hc hp
    subst hc; subst hp
    rfl
  · intro txt
    exact ⟨rfl, rfl⟩
  · intro c cs txt hc
    obtain ⟨cc⟩ := c
    simp only at hc
    subst hc
    rfl
  · intro c cs txt p ps hc hp
    obtain ⟨cc⟩ := c
    obtain ⟨pt⟩ := p
    simp only at hc hp
    subst hc; subst hp
    rfl

theorem extract_ai_text_contract_witness :
    extract_ai_text (AIResponse.str "hello") = some "hello"
      ∧ extract_ai_text (AIResponse.obj (some [⟨some [⟨some "leaf"⟩]⟩]) none) = some "leaf"
      ∧ extract_ai_text (AIResponse.obj none (some "direct")) = some "direct"
      ∧ extract_ai_text (AIResponse.obj none none) = none := by
  refine ⟨?_, ?_, ?_, ?_⟩
  · exact extract_ai_text_contract.1 "hello" (by decide)
  · exact extract_ai_text_contract.2.2.2.1 ⟨some [⟨some "leaf"⟩]⟩ [] none ⟨some "leaf"⟩ [] "leaf" rfl rfl
  · exact (extract_ai_text_contract.2.2.2.2.1 (some "direct")).1
  · exact (extract_ai_text_contract.2.2.2.2.1 none).1

/-- C7: when the analyzer is absent or its record set is empty, the
analytics dashboard and the AI question interface each render only the
placeholder prompt, build no context and perform zero AI calls. -/
theorem no_data_placeholder (st : SessionState) (ai : AIOracle) (inputs : AIInputs)
    (h : st.analyzer = none ∨ ∃ a, st.analyzer = some a ∧ a.data = []) :
    analytics_dashboard st = DashboardView.placeholder
      ∧ ai_analysis_interface st ai inputs = (AIView.placeholder, 0) := by
  rcases h with h | ⟨a, ha, hd⟩
  · constructor <;> simp [analytics_dashboard, ai_analysis_interface, h]
  · constructor <;> simp [analytics_dashboard, ai_analysis_interface, ha, hd]

theorem no_data_placeholder_witness :
    ((⟨none, false⟩ : SessionState).analyzer = none
        ∨ ∃ a, (⟨none, false⟩ : SessionState).analyzer = some a ∧ a.data = [])
      ∧ analytics_dashboard ⟨none, false⟩ = DashboardView.placeholder
      ∧ ai_analysis_interface ⟨none, false⟩ aiW inputsW = (AIView.placeholder, 0) := by
  have h := no_data_placeholder ⟨none, false⟩ aiW inputsW (Or.inl rfl)
  exact ⟨Or.inl rfl, h.1, h.2⟩

/-- C4: with records already loaded, a failing or raising reload leaves the
record set (hence its count) and the `data_loaded` flag unchanged and reports
a warning or error; the flag is set to true on a successful reload. -/
theorem reload_failure_preserves (st : SessionState) (a : Analyzer) (r : LoadResult)
    (ha : st.analyzer = some a) (hd : a.data ≠ [])
    (hfail : r = LoadResult.failure ∨ ∃ e, r = LoadResult.raised e) :
    (data_management_reload st r).1.analyzer = some a
      ∧ (data_management_reload st r).1.data_loaded = st.data_loaded
      ∧ ((data_management_reload st r).2 = ReloadMessage.warningMsg
          ∨ ∃ e, (data_management_reload st r).2 = ReloadMessage.errorMsg e)
      ∧ (∀ d : List Employee,
          (data_management_reload st (LoadResult.success d)).1.data_loaded = true) := by
  rcases hfail with h | ⟨e, h⟩ <;> subst h <;>
    simp [data_management_reload, apply_load, ha]

theorem reload_failure_preserves_witness :
    sessionW.analyzer = some analyzerW
      ∧ analyzerW.data ≠ []
      ∧ (data_management_reload sessionW LoadResult.failure).1.analyzer = some analyzerW
      ∧ (data_management_reload sessionW LoadResult.failure).1.data_loaded
          = sessionW.data_loaded := by
  have h := reload_failure_preserves sessionW analyzerW LoadResult.failure rfl
    (by decide) (Or.inl rfl)
  exact ⟨rfl, by decide, h.1, h.2.1⟩

/-- C1: a non-empty query submitted in the AI question interface is matched
(lower-cased) against the four keyword→quadrant mappings in declared order,
first substring match wins: on a match the view is exactly the quadrant
table and `analyze_with_ai` is called zero times; with no match the raw
query plus the built context is forwarded to the AI (one call).  In
particular "Show me at risk employees" yields the "At Risk" table and no AI
call. -/
theorem keyword_routing (st : SessionState) (ai : AIOracle) (inputs : AIInputs)
    (a : Analyzer) (ha : st.analyzer = some a) (hd : a.data ≠ [])
    (hbtn : inputs.show_champions = false ∧ inputs.show_at_risk = false
      ∧ inputs.show_engagement = false ∧ inputs.show_retention = false)
    (hclick : inputs.analyze_clicked = true) (hq : inputs.query ≠ "") :
    (∀ kw quad, findQuadrantKeyword inputs.query = some (kw, quad) →
      ai_analysis_interface st ai inputs
        = (AIView.sections [quadrant_section a "📌" quad], 0))
    ∧ (findQuadrantKeyword inputs.query = none →
      ai_analysis_interface st ai inputs
        = (AIView.sections
            [run_ai_query ai "🎯 AI Analysis Results" inputs.query (build_context a)], 1))
    ∧ (inputs.query = "Show me at risk employees" →
      ai_analysis_interface st ai inputs
        = (AIView.sections [quadrant_section a "📌" "At Risk"], 0)) := by
  obtain ⟨h1, h2, h3, h4⟩ := hbtn
  have main : ∀ kw quad, findQuadrantKeyword inputs.query = some (kw, quad) →
      ai_analysis_interface st ai inputs
        = (AIView.sections [quadrant_section a "📌" quad], 0) := by
    intro kw quad hfind
    simp [ai_analysis_interface, custom_query_section, ha, hd, h1, h2, h3, h4,
      hclick, hq, hfind]
  refine ⟨main, ?_, ?_⟩
  · intro hfind
    simp [ai_analysis_interface, custom_query_section, ha, hd, h1, h2, h3, h4,
      hclick, hq, hfind]
  · intro hqe
    exact main "at risk" "At Risk" (by rw [hqe]; decide)

theorem keyword_routing_witness :
    sessionW.analyzer = some analyzerW
      ∧ inputsW.query = "Show me at risk employees"
      ∧ ai_analysis_interface sessionW aiW inputsW
          = (AIView.sections [quadrant_section analyzerW "📌" "At Risk"], 0)
      ∧ (ai_analysis_interface sessionW aiW inputsW).2 = 0 := by
  have h := (keyword_routing sessionW aiW inputsW analyzerW rfl (by decide)
    ⟨rfl, rfl, rfl, rfl⟩ rfl (by decide)).2.2 rfl
  exact ⟨rfl, rfl, h, by rw [h]⟩

/-- C9: the status panel is a pure read of session state: its output is
determined by the three boolean health signals (analyzer initialized, AI
client available, vector client available), each signal is reflected in the
rendered notices, no notice ever has error severity, and the vector client's
absence is reported with info severity. -/
theorem status_panel_spec (st : SessionState) :
    (st.analyzer = none → show_environment_status st = [msg_not_initialized])
    ∧ (∀ a : Analyzer, st.analyzer = some a →
        (msg_env_configured ∈ show_environment_status st
          ∧ (msg_gemini_connected ∈ show_environment_status st ↔ a.gemini_client = true)
          ∧ (msg_vector_connected ∈ show_environment_status st ↔ a.qdrant_client = true)
          ∧ (msg_vector_offline ∈ show_environment_status st ↔ a.qdrant_client = false)))
    ∧ (∀ m ∈ show_environment_status st, m.severity ≠ Severity.error)
    ∧ msg_vector_offline.severity = Severity.info
    ∧ (∀ st2 : SessionState, status_signals st2 = status_signals st →
        show_environment_status st2 = show_environment_status st) := by
  refine ⟨?_, ?_, ?_, rfl, ?_⟩
  · intro h
    simp [show_environment_status, h]
  · intro a ha
    obtain ⟨d, g, q⟩ := a
    cases g <;> cases q <;>
      simp [show_environment_status, ha] <;>
      decide
  · obtain ⟨oa, dl⟩ := st
    match oa with
    | none =>
      simp [show_environment_status, List.forall_mem_cons, msg_not_initialized]
    | some a =>
      obtain ⟨d, g, q⟩ := a
      cases g <;> cases q <;>
        simp [show_environment_status, List.forall_mem_cons, msg_env_configured,
          msg_gemini_connected, msg_vector_connected, msg_vector_offline]
  · intro st2 hsig
    obtain ⟨oa, dl⟩ := st
    obtain ⟨oa2, dl2⟩ := st2
    match oa, oa2 with
    | none, none => rfl
    | none, some a2 =>
      exfalso
      obtain ⟨d2, g2, q2⟩ := a2
      simp [status_signals] at hsig
    | some a, none =>
      exfalso
      obtain ⟨d, g, q⟩ := a
      simp [status_signals] at hsig
    | some a, some a2 =>
      obtain ⟨d, g, q⟩ := a
      obtain ⟨d2, g2, q2⟩ := a2
      simp [status_signals] at hsig
      obtain ⟨hg, hq2⟩ := hsig
      simp [show_environment_status, hg, hq2]

theorem status_panel_spec_witness :
    msg_vector_offline ∈ show_environment_status sessionW
      ∧ msg_gemini_connected ∈ show_environment_status sessionW
      ∧ msg_vector_offline.severity = Severity.info := by
  have h := status_panel_spec sessionW
  have h2 := h.2.1 analyzerW rfl
  exact ⟨h2.2.2.2.mpr rfl, h2.2.1.mpr rfl, h.2.2.2.1⟩

/-- The count stored in the quadrant distribution equals the length of the
exact-match filter, for every quadrant name. -/
theorem lookup0_distribution (a : Analyzer) (q : String) :
    lookup0 (get_quadrant_distribution a) q
      = (a.data.filter (fun e => e.quadrant == some q)).length := by
  unfold lookup0 get_quadrant_distribution
  rw [find?_map_key]
  split
  · simp
  · rename_i h
    rw [mem_keysInOrder] at h
    have hnil : a.data.filter (fun e => e.quadrant == some q) = [] := by
      rw [List.filter_eq_nil_iff]
      intro e he hbe
      exact h (List.mem_filterMap.mpr ⟨e, he, by
        simpa using (beq_iff_eq.mp hbe)⟩)
    simp [hnil]

/-- C5: the quadrant filter returns exactly the records whose quadrant
field equals the requested name, its count agrees with the quadrant
distribution's count, and `display_employees` renders an explicit
"none found" notice for an empty result and otherwise the table of
id/role/sentiment/content rows. -/
theorem quadrant_filter_spec (a : Analyzer) (q : String) :
    (∀ e : Employee, e ∈ get_employees_by_quadrant (some a) q
        ↔ (e ∈ a.data ∧ e.quadrant = some q))
    ∧ (get_employees_by_quadrant (some a) q).length
        = lookup0 (get_quadrant_distribution a) q
    ∧ display_employees [] = EmployeeView.noneFound
    ∧ (∀ es : List Employee, es ≠ [] →
        display_employees es = EmployeeView.table (es.map employee_row)) := by
  refine ⟨?_, ?_, rfl, ?_⟩
  · intro e
    unfold get_employees_by_quadrant
    by_cases hd : a.data = []
    · simp [hd]
    · simp [hd, List.mem_filter]
  · rw [lookup0_distribution]
    unfold get_employees_by_quadrant
    by_cases hd : a.data = [] <;> simp [hd]
  · intro es hes
    simp [display_employees, hes]

theorem quadrant_filter_spec_witness :
    (get_employees_by_quadrant (some analyzerW) "Champion").length
        = lookup0 (get_quadrant_distribution analyzerW) "Champion"
      ∧ (empA ∈ get_employees_by_quadrant (some analyzerW) "Champion"
          ↔ (empA ∈ analyzerW.data ∧ empA.quadrant = some "Champion")) :=
  ⟨(quadrant_filter_spec analyzerW "Champion").2.1,
    (quadrant_filter_spec analyzerW "Champion").1 empA⟩

/-- C6: in the rendered dashboard, the average-sentiment metric is labelled
"Healthy" exactly when the average is strictly greater than 60 (otherwise
"Needs Attention"), and each per-role bar is green exactly when the role
sentiment exceeds 70, amber exactly when it exceeds 50 but not 70, and red
exactly otherwise. -/
theorem dashboard_label_colors (st : SessionState) (a : Analyzer)
    (ha : st.analyzer = some a) (hd : a.data ≠ []) :
    ∀ total avgText avgLabel champions atRisk pie bars,
      analytics_dashboard st
        = DashboardView.dashboard total avgText avgLabel champions atRisk pie bars →
      ((avgLabel = "Healthy" ↔ (get_analytics_summary a).average_sentiment > 60)
        ∧ (avgLabel = "Needs Attention"
            ↔ ¬ (get_analytics_summary a).average_sentiment > 60)
        ∧ (∀ b ∈ bars,
            ((b.color = "#28a745" ↔ b.sentiment > 70)
              ∧ (b.color = "#ffc107" ↔ (b.sentiment > 50 ∧ ¬ b.sentiment > 70))
              ∧ (b.color = "#dc3545" ↔ ¬ b.sentiment > 50)))) := by
  intro total avgText avgLabel champions atRisk pie bars hdash
  simp only [analytics_dashboard, ha, if_neg hd, DashboardView.dashboard.injEq] at hdash
  obtain ⟨ht, hat, hal, hch, har, hpie, hbars⟩ := hdash
  refine ⟨?_, ?_, ?_⟩
  · rw [← hal]
    by_cases h : (get_analytics_summary a).average_sentiment > 60 <;>
      simp [h]
  · rw [← hal]
    by_cases h : (get_analytics_summary a).average_sentiment > 60 <;>
      simp [h]
  · intro b hb
    rw [← hbars] at hb
    simp only [List.mem_map] at hb
    obtain ⟨p, hp, rfl⟩ := hb
    by_cases h70 : p.2 > 70
    · have h50 : p.2 > 50 := lt_trans (by norm_num) h70
      simp [h70, h50]
    · by_cases h50 : p.2 > 50
      · simp [h70, h50]
      · simp [h70, h50]

theorem dashboard_label_colors_witness :
    ∃ total avgText avgLabel champions atRisk pie bars,
      analytics_dashboard sessionW
        = DashboardView.dashboard total avgText avgLabel champions atRisk pie bars
      ∧ (avgLabel = "Healthy"
          ↔ (get_analytics_summary analyzerW).average_sentiment > 60) := by
  refine ⟨_, _, _, _, _, _, _, rfl, ?_⟩
  exact (dashboard_label_colors sessionW analyzerW rfl (by decide)
    _ _ _ _ _ _ _ rfl).1

/-- A substring occurrence exhibited by an explicit decomposition. -/
theorem occursIn_exact (pre post sub s : String) (h : s = pre ++ sub ++ post) :
    occursIn sub s :=
  h ▸ occursIn_appendL (occursIn_suffix pre sub) post

/-- C3: the context string is a deterministic function of the aggregate
summary and the first 21 loaded records: it contains the literal
total-employee count, the average-sentiment value, the rendered quadrant
distribution and per-role sentiments, contains each of the first
`min 21 length` records rendered as `name (role): score%, quadrant`, and
does not depend on anything else. -/
theorem build_context_spec (a : Analyzer) :
    occursIn ("Total Employees: "
        ++ toString (get_analytics_summary a).total_employees) (build_context a)
    ∧ occursIn ("Average Sentiment: "
        ++ fmt1 (get_analytics_summary a).average_sentiment ++ "%") (build_context a)
    ∧ occursIn (String.intercalate ", "
        ((get_analytics_summary a).quadrant_distribution.map
          (fun p => p.1 ++ ": " ++ toString p.2))) (build_context a)
    ∧ occursIn (String.intercalate ", "
        ((get_analytics_summary a).sentiment_by_role.map
          (fun p => p.1 ++ ": " ++ fmt1 p.2 ++ "%"))) (build_context a)
    ∧ (∀ emp ∈ a.data.take 21, occursIn (record_line emp) (build_context a))
    ∧ (∀ b : Analyzer, get_analytics_summary b = get_analytics_summary a →
        b.data.take 21 = a.data.take 21 → build_context b = build_context a) := by
  have hb : build_context a
      = "\n    Total Employees: "
          ++ toString (get_analytics_summary a).total_employees
        ++ "\n    Average Sentiment: "
          ++ fmt1 (get_analytics_summary a).average_sentiment
        ++ "%\n    Quadrant Distribution: "
          ++ String.intercalate ", "
            ((get_analytics_summary a).quadrant_distribution.map
              (fun p => p.1 ++ ": " ++ toString p.2))
        ++ "\n    Sentiment by Role: "
          ++ String.intercalate ", "
            ((get_analytics_summary a).sentiment_by_role.map
              (fun p => p.1 ++ ": " ++ fmt1 p.2 ++ "%"))
        ++ "\n\n    Example Employee Records:\n    "
        ++ concatAll ((a.data.take 21).map record_line) := by
    simp only [build_context]
    rw [foldl_append_concatAll]
  have e1 : ("\n    Total Employees: " : String).data
      = ("\n    " : String).data ++ ("Total Employees: " : String).data := by decide
  have e2 : ("\n    Average Sentiment: " : String).data
      = ("\n    " : String).data ++ ("Average Sentiment: " : String).data := by decide
  have e3 : ("%\n    Quadrant Distribution: " : String).data
      = ("%" : String).data ++ ("\n    Quadrant Distribution: " : String).data := by
    decide
  refine ⟨?_, ?_, ?_, ?_, ?_, ?_⟩
  · rw [hb]
    iterate 8 apply occursIn_appendL
    apply occursIn_exact "\n    " ""
    apply str_ext
    simp [str_data_append, e1]
  · rw [hb]
    iterate 5 apply occursIn_appendL
    apply occursIn_exact
      ("\n    Total Employees: "
        ++ toString (get_analytics_summary a).total_employees ++ "\n    ")
      "\n    Quadrant Distribution: "
    apply str_ext
    simp [str_data_append, e2, e3, List.append_assoc]
  · rw [hb]
    iterate 4 apply occursIn_appendL
    apply occursIn_suffix
  · rw [hb]
    iterate 2 apply occursIn_appendL
    apply occursIn_suffix
  · intro emp hmem
    rw [hb]
    exact occursIn_appendR
      (occursIn_concatAll (List.mem_map_of_mem record_line hmem)) _
  · intro b hs ht
    simp only [build_context]
    rw [hs, ht]

theorem build_context_spec_witness :
    occursIn ("Total Employees: "
        ++ toString (get_analytics_summary analyzerW).total_employees)
      (build_context analyzerW)
      ∧ occursIn (record_line empA) (build_context analyzerW) :=
  ⟨(build_context_spec analyzerW).1,
    (build_context_spec analyzerW).2.2.2.2.1 empA (by decide)⟩
